import Mathlib

/-!
Verification development for the MTProto per-session state kept in
src/td/mtproto/AuthData.cpp: the duplicate-message window
(MessageIdDuplicateChecker), the clock-skew estimate, inbound packet
admission (check_packet), outbound message-id minting (next_message_id)
and the server-salt store.

Doubles are embedded as rationals (arithmetic on them is exact in the
ranges exercised here), int64 values as unbounded integers except where
two's-complement bit operations occur, which are carried out on the
64-bit natural-number pattern with explicit reduction modulo 2^64.
-/

namespace Td.Mtproto

/-- The rejection kinds produced by the admission checks: the two kinds
returned by MessageIdDuplicateChecker::check (error codes 2 and 1), and
the three produced directly by AuthData::check_packet. -/
inductive CheckError where
  | WrongSession
  | BadParity
  | Duplicate
  | TooOld
  | StaleOrFutureId
deriving DecidableEq, Repr

instance : DecidableEq (Except CheckError Unit) := fun a b =>
  match a, b with
  | Except.ok x, Except.ok y => isTrue (by cases x; cases y; rfl)
  | Except.error e1, Except.error e2 =>
    if h : e1 = e2 then isTrue (by rw [h]) else isFalse (fun hc => h (by cases hc; rfl))
  | Except.ok _, Except.error _ => isFalse (fun hc => Except.noConfusion hc)
  | Except.error _, Except.ok _ => isFalse (fun hc => Except.noConfusion hc)

/-- Modelled from the spec: the capacity constant MAX_SAVED_MESSAGE_IDS is
declared in AuthData.h, which is not part of the sources; the spec fixes it
as a constant N, e.g. 300. -/
def MAX_SAVED_MESSAGE_IDS : Nat := 300

/-- The duplicate window: std::set of int64 message ids, embedded as a
finite set of integers (begin() of the std::set is its minimum). -/
structure MessageIdDuplicateChecker where
  saved_message_ids_ : Finset Int
deriving DecidableEq

/-- MessageIdDuplicateChecker::check. The C++ mutates the member set and
returns a Status; here the (possibly updated) checker is returned next to
the status. The error branches return before any insertion, so they hand
back the checker unchanged. -/
def MessageIdDuplicateChecker.check (c : MessageIdDuplicateChecker) (message_id : Int) :
    MessageIdDuplicateChecker × Except CheckError Unit :=
  if c.saved_message_ids_.card = MAX_SAVED_MESSAGE_IDS ∧
      (message_id : WithTop Int) < c.saved_message_ids_.min then
    (c, Except.error CheckError.TooOld)
  else if message_id ∈ c.saved_message_ids_ then
    (c, Except.error CheckError.Duplicate)
  else
    let s := insert message_id c.saved_message_ids_
    if MAX_SAVED_MESSAGE_IDS < s.card then
      (⟨s.erase (s.min.untop' 0)⟩, Except.ok ())
    else
      (⟨s⟩, Except.ok ())

/-- A server salt: secret value valid over a time interval. -/
structure ServerSalt where
  salt : Int
  valid_since : ℚ
  valid_until : ℚ
deriving DecidableEq

/-- The AuthData fields exercised by AuthData.cpp. The session id is a
uint64, kept as a natural number below 2^64. -/
structure AuthData where
  session_id_ : Nat
  server_salt_ : ServerSalt
  future_salts_ : List ServerSalt
  server_time_difference_ : ℚ
  server_time_difference_was_updated_ : Bool
  last_message_id_ : Int
  duplicate_checker_ : MessageIdDuplicateChecker
deriving DecidableEq

/-- Modelled from the spec: AuthData::get_server_time lives in AuthData.h,
which is not part of the sources; the spec defines
get_server_time(local_now) = local_now + server_time_difference. -/
def AuthData.get_server_time (st : AuthData) (now : ℚ) : ℚ :=
  now + st.server_time_difference_

/-- AuthData::update_server_time_difference: first estimate is adopted
unconditionally; afterwards only a candidate larger than the current
estimate by more than 1e-4 is adopted. Returns the new state and whether
the estimate changed. -/
def AuthData.update_server_time_difference (st : AuthData) (diff : ℚ) : AuthData × Bool :=
  if !st.server_time_difference_was_updated_ then
    ({st with server_time_difference_was_updated_ := true,
              server_time_difference_ := diff}, true)
  else if st.server_time_difference_ + 1/10000 < diff then
    ({st with server_time_difference_ := diff}, true)
  else
    (st, false)

/-- AuthData::is_valid_inbound_msg_id: id / 2^32 (C++ int64 division,
truncation toward zero) must fall in (server_time - 300, server_time + 30). -/
def AuthData.is_valid_inbound_msg_id (st : AuthData) (id : Int) (now : ℚ) : Bool :=
  let server_time := st.get_server_time now
  let id_time : ℚ := ((id.tdiv (2 ^ 32) : Int) : ℚ)
  decide (server_time - 300 < id_time ∧ id_time < server_time + 30)

/-- AuthData::check_packet. The C++ takes time_difference_was_updated as an
out-parameter assigned only after the duplicate check passes; the embedding
threads the caller's variable through explicitly and returns its value
after the call, next to the mutated state and the status.
static_cast of the int64 session id to uint64 is reduction mod 2^64;
message_id >> 32 is the arithmetic shift, i.e. floor division by 2^32, and
the subsequent static_cast to uint32 is reduction mod 2^32. -/
def AuthData.check_packet (st : AuthData) (session_id message_id : Int) (now : ℚ)
    (time_difference_was_updated : Bool) :
    AuthData × Bool × Except CheckError Unit :=
  if st.session_id_ ≠ ((session_id % 2 ^ 64).toNat) then
    (st, time_difference_was_updated, Except.error CheckError.WrongSession)
  else if message_id % 2 = 0 then
    (st, time_difference_was_updated, Except.error CheckError.BadParity)
  else
    match st.duplicate_checker_.check message_id with
    | (c, Except.error e) =>
      ({st with duplicate_checker_ := c}, time_difference_was_updated, Except.error e)
    | (c, Except.ok _) =>
      let st1 := {st with duplicate_checker_ := c}
      let p := st1.update_server_time_difference
        (((((message_id.fdiv (2 ^ 32)) % 2 ^ 32 : Int) : ℚ)) - now)
      if p.1.server_time_difference_was_updated_ &&
          !(p.1.is_valid_inbound_msg_id message_id now) then
        (p.1, p.2, Except.error CheckError.StaleOrFutureId)
      else
        (p.1, p.2, Except.ok ())

/-- The two's-complement 64-bit pattern of an int64 value. -/
def toBits64 (t : Int) : Nat := (t % 2 ^ 64).toNat

/-- The int64 value denoted by a 64-bit pattern. -/
def ofBits64 (n : Nat) : Int := if n < 2 ^ 63 then (n : Int) else (n : Int) - 2 ^ 64

/-- static_cast<int64>(double): truncation toward zero of the rational. -/
def double_to_int64 (q : ℚ) : Int := q.num.tdiv (q.den : Int)

/-- AuthData::next_message_id. The secure random int32 is taken as an input
rx, given by its 32-bit pattern. rx & ((1 << 22) - 1) and
((rx >> 22) & 1023) are computed on the pattern: the mask keeps only bits
below 32, where the pattern and the signed value agree bitwise.
t ^= to_xor and t & -4 are int64 bit operations, carried out on the 64-bit
pattern; the pattern of -4 is 2^64 - 4. -/
def AuthData.next_message_id (st : AuthData) (now : ℚ) (rx : Nat) : AuthData × Int :=
  let server_time := st.get_server_time now
  let t := double_to_int64 (server_time * 2 ^ 32)
  let to_xor := rx &&& (2 ^ 22 - 1)
  let to_mul := ((rx >>> 22) &&& 1023) + 1
  let t2 := ofBits64 ((toBits64 t) ^^^ to_xor)
  let result := ofBits64 ((toBits64 t2) &&& (toBits64 (-4)))
  if st.last_message_id_ ≥ result then
    let result2 := st.last_message_id_ + 8 * (to_mul : Int)
    ({st with last_message_id_ := result2}, result2)
  else
    ({st with last_message_id_ := result}, result)

/-- The loop of AuthData::update_salt: while the back (last element) of
future_salts_ has valid_since below server time, pop it into the current
salt. -/
def update_salt_go (server_time : ℚ) (cur : ServerSalt) (fs : List ServerSalt) :
    ServerSalt × List ServerSalt :=
  if hne : fs = [] then
    (cur, fs)
  else
    let b := fs.getLast hne
    if b.valid_since < server_time then
      update_salt_go server_time b fs.dropLast
    else
      (cur, fs)
termination_by fs.length
decreasing_by
  have hlen : 0 < fs.length := List.length_pos.mpr hne
  simp only [List.length_dropLast]
  omega

/-- AuthData::update_salt. -/
def AuthData.update_salt (st : AuthData) (now : ℚ) : AuthData :=
  let server_time := st.get_server_time now
  let r := update_salt_go server_time st.server_salt_ st.future_salts_
  {st with server_salt_ := r.1, future_salts_ := r.2}

/-- AuthData::set_future_salts: no-op on an empty list, otherwise store the
salts sorted by valid_since descending (std::sort with comparator
a.valid_since > b.valid_since, embedded as a comparison sort for that
order) and promote due salts. -/
def AuthData.set_future_salts (st : AuthData) (salts : List ServerSalt) (now : ℚ) : AuthData :=
  if salts = [] then
    st
  else
    AuthData.update_salt
      {st with future_salts_ :=
        List.insertionSort (fun a b => b.valid_since ≤ a.valid_since) salts}
      now

/-- The state/flag pair after the clock-skew update step inside
check_packet, on the path where the duplicate check has produced the
window c. -/
def AuthData.post_update (st : AuthData) (mid : Int) (now : ℚ)
    (c : MessageIdDuplicateChecker) : AuthData × Bool :=
  ({st with duplicate_checker_ := c}).update_server_time_difference
    (((((mid.fdiv (2 ^ 32)) % 2 ^ 32 : Int) : ℚ)) - now)

theorem check_error_state {c c' : MessageIdDuplicateChecker} {m : Int} {e : CheckError}
    (h : c.check m = (c', Except.error e)) : c' = c := by
  unfold MessageIdDuplicateChecker.check at h
  split at h
  · injection h with h1 h2
    exact h1.symm
  · split at h
    · injection h with h1 h2
      exact h1.symm
    · dsimp only at h
      split at h <;> (injection h with h1 h2; exact Except.noConfusion h2)

theorem check_ok_spec {c c' : MessageIdDuplicateChecker} {m : Int} {u : Unit}
    (hc : c.saved_message_ids_.card ≤ MAX_SAVED_MESSAGE_IDS)
    (h : c.check m = (c', Except.ok u)) :
    m ∉ c.saved_message_ids_ ∧ m ∈ c'.saved_message_ids_ ∧
      c'.saved_message_ids_.card ≤ MAX_SAVED_MESSAGE_IDS := by
  unfold MessageIdDuplicateChecker.check at h
  split at h
  · injection h with h1 h2
    exact Except.noConfusion h2
  · rename_i hfirst
    split at h
    · injection h with h1 h2
      exact Except.noConfusion h2
    · rename_i hdup
      dsimp only at h
      split at h
      · rename_i hgt
        injection h with h1 h2
        rw [Finset.card_insert_of_not_mem hdup] at hgt
        have hcard : c.saved_message_ids_.card = MAX_SAVED_MESSAGE_IDS := le_antisymm hc (by omega)
        have hne : c.saved_message_ids_.Nonempty := by
          apply Finset.card_pos.mp
          rw [hcard, MAX_SAVED_MESSAGE_IDS]
          norm_num
        have hnotlt : ¬((m : WithTop Int) < c.saved_message_ids_.min) := fun hlt => hfirst ⟨hcard, hlt⟩
        have hminc : ((c.saved_message_ids_.min' hne : Int) : WithTop Int) = c.saved_message_ids_.min :=
          Finset.coe_min' hne
        have hlem : c.saved_message_ids_.min' hne < m := by
          rcases lt_or_eq_of_le (le_of_not_lt (fun hlt => hnotlt (by
            rw [← hminc]
            exact_mod_cast hlt))) with h' | h'
          · exact h'
          · exact absurd (h' ▸ Finset.min'_mem _ hne) hdup
        have hmins : (insert m c.saved_message_ids_).min =
            ((c.saved_message_ids_.min' hne : Int) : WithTop Int) := by
          rw [Finset.min_insert, hminc.symm]
          exact min_eq_right (by exact_mod_cast le_of_lt hlem)
        have hminmem : c.saved_message_ids_.min' hne ∈ insert m c.saved_message_ids_ :=
          Finset.mem_insert_of_mem (Finset.min'_mem _ hne)
        refine ⟨hdup, ?_, ?_⟩
        · rw [← h1]
          dsimp only
          rw [hmins, WithTop.untop'_coe]
          exact Finset.mem_erase.mpr ⟨ne_of_gt hlem, Finset.mem_insert_self _ _⟩
        · rw [← h1]
          dsimp only
          rw [hmins, WithTop.untop'_coe, Finset.card_erase_of_mem hminmem,
            Finset.card_insert_of_not_mem hdup, hcard]
          omega
      · rename_i hle
        injection h with h1 h2
        refine ⟨hdup, ?_, ?_⟩
        · rw [← h1]
          exact Finset.mem_insert_self _ _
        · rw [← h1]
          dsimp only
          omega

/-- C6: for every sequence of calls to the duplicate window's check (i.e. from
any state reachable from the empty window, characterized by the size bound),
the number of stored ids never exceeds MAX_SAVED_MESSAGE_IDS, and immediately
after check(m) succeeds, a second check(m) fails with Duplicate. -/
theorem duplicate_checker_card_bound_and_recheck
    {c c' : MessageIdDuplicateChecker} {m : Int} {u : Unit}
    (hc : c.saved_message_ids_.card ≤ MAX_SAVED_MESSAGE_IDS)
    (h : c.check m = (c', Except.ok u)) :
    c'.saved_message_ids_.card ≤ MAX_SAVED_MESSAGE_IDS ∧
      (c'.check m).2 = Except.error CheckError.Duplicate := by
  obtain ⟨-, hmem, hcard⟩ := check_ok_spec hc h
  refine ⟨hcard, ?_⟩
  have hnot : ¬(c'.saved_message_ids_.card = MAX_SAVED_MESSAGE_IDS ∧
      (m : WithTop Int) < c'.saved_message_ids_.min) := by
    rintro ⟨-, hlt⟩
    exact absurd hlt (not_lt.mpr (Finset.min_le hmem))
  unfold MessageIdDuplicateChecker.check
  rw [if_neg hnot, if_pos hmem]

/-- Witness for C6 at the empty window and id 3. -/
theorem duplicate_checker_card_bound_and_recheck_witness :
    (⟨∅⟩ : MessageIdDuplicateChecker).saved_message_ids_.card ≤ MAX_SAVED_MESSAGE_IDS ∧
      MessageIdDuplicateChecker.check ⟨∅⟩ 3 =
        ((⟨{3}⟩ : MessageIdDuplicateChecker), Except.ok ()) ∧
      ((⟨{3}⟩ : MessageIdDuplicateChecker).saved_message_ids_.card ≤ MAX_SAVED_MESSAGE_IDS ∧
        ((⟨{3}⟩ : MessageIdDuplicateChecker).check 3).2 = Except.error CheckError.Duplicate) :=
  ⟨by decide, by decide,
    @duplicate_checker_card_bound_and_recheck ⟨∅⟩ ⟨{3}⟩ 3 () (by decide) (by decide)⟩

/-- C7: when the window holds exactly MAX_SAVED_MESSAGE_IDS ids and its
minimum stored id is M, check(m) for any m < M fails with TooOld and hands
the stored set back unchanged. -/
theorem duplicate_checker_full_too_old
    {c : MessageIdDuplicateChecker} {m M : Int}
    (h1 : c.saved_message_ids_.card = MAX_SAVED_MESSAGE_IDS)
    (h2 : M ∈ c.saved_message_ids_)
    (h3 : ∀ x ∈ c.saved_message_ids_, M ≤ x)
    (h4 : m < M) :
    c.check m = (c, Except.error CheckError.TooOld) := by
  have hmin : (m : WithTop Int) < c.saved_message_ids_.min := by
    have hMle : ((M : Int) : WithTop Int) ≤ c.saved_message_ids_.min :=
      Finset.le_min (fun b hb => by exact_mod_cast h3 b hb)
    exact lt_of_lt_of_le (by exact_mod_cast h4) hMle
  unfold MessageIdDuplicateChecker.check
  rw [if_pos ⟨h1, hmin⟩]

/-- Witness for C7 at the full window {0, ..., 299} with minimum 0 and id -1. -/
theorem duplicate_checker_full_too_old_witness :
    ((⟨Finset.Icc (0 : Int) 299⟩ :
        MessageIdDuplicateChecker).saved_message_ids_.card = MAX_SAVED_MESSAGE_IDS ∧
      (0 : Int) ∈ (⟨Finset.Icc (0 : Int) 299⟩ :
        MessageIdDuplicateChecker).saved_message_ids_ ∧
      (∀ x ∈ (⟨Finset.Icc (0 : Int) 299⟩ :
        MessageIdDuplicateChecker).saved_message_ids_, (0 : Int) ≤ x) ∧
      (-1 : Int) < 0) ∧
      MessageIdDuplicateChecker.check ⟨Finset.Icc (0 : Int) 299⟩ (-1) =
        ((⟨Finset.Icc (0 : Int) 299⟩ : MessageIdDuplicateChecker),
          Except.error CheckError.TooOld) := by
  have hcard : (Finset.Icc (0 : Int) 299).card = MAX_SAVED_MESSAGE_IDS := by
    rw [Int.card_Icc, MAX_SAVED_MESSAGE_IDS]
    decide
  have hmem : (0 : Int) ∈ Finset.Icc (0 : Int) 299 := by
    rw [Finset.mem_Icc]
    norm_num
  have hall : ∀ x ∈ Finset.Icc (0 : Int) 299, (0 : Int) ≤ x := by
    intro x hx
    rw [Finset.mem_Icc] at hx
    exact hx.1
  exact ⟨⟨hcard, hmem, hall, by norm_num⟩,
    duplicate_checker_full_too_old hcard hmem hall (by norm_num)⟩

/-- C9: while the window holds strictly fewer than MAX_SAVED_MESSAGE_IDS ids,
check(m) succeeds for every id m not already stored, however small: TooOld can
only occur at full capacity. -/
theorem duplicate_checker_not_full_admits
    {c : MessageIdDuplicateChecker} {m : Int}
    (h1 : c.saved_message_ids_.card < MAX_SAVED_MESSAGE_IDS)
    (h2 : m ∉ c.saved_message_ids_) :
    (c.check m).2 = Except.ok () := by
  unfold MessageIdDuplicateChecker.check
  rw [if_neg (fun hh => absurd hh.1 (Nat.ne_of_lt h1)), if_neg h2]
  dsimp only
  split <;> rfl

/-- Witness for C9: the window {5} admits the much smaller id -1000000. -/
theorem duplicate_checker_not_full_admits_witness :
    ((⟨{5}⟩ : MessageIdDuplicateChecker).saved_message_ids_.card < MAX_SAVED_MESSAGE_IDS ∧
      (-1000000 : Int) ∉ (⟨{5}⟩ : MessageIdDuplicateChecker).saved_message_ids_) ∧
      ((⟨{5}⟩ : MessageIdDuplicateChecker).check (-1000000)).2 = Except.ok () :=
  ⟨⟨by decide, by decide⟩, duplicate_checker_not_full_admits (by decide) (by decide)⟩

theorem check_error_kind {c c' : MessageIdDuplicateChecker} {m : Int} {e : CheckError}
    (h : c.check m = (c', Except.error e)) :
    e = CheckError.TooOld ∨ e = CheckError.Duplicate := by
  unfold MessageIdDuplicateChecker.check at h
  split at h
  · injection h with h1 h2
    injection h2 with h3
    exact Or.inl h3.symm
  · split at h
    · injection h with h1 h2
      injection h2 with h3
      exact Or.inr h3.symm
    · dsimp only at h
      split at h <;> (injection h with h1 h2; exact Except.noConfusion h2)

theorem update_stp_dup (st : AuthData) (d : ℚ) :
    ((st.update_server_time_difference d).1).duplicate_checker_ = st.duplicate_checker_ := by
  unfold AuthData.update_server_time_difference
  split
  · rfl
  · split <;> rfl

/-- C1 (amended): with the reachable size bound on the window, every failing
check_packet other than StaleOrFutureId leaves the state and the caller's
time_difference_was_updated variable unchanged; on a StaleOrFutureId failure
the duplicate window has already inserted the message id. -/
theorem check_packet_failure_frame
    {st : AuthData} {sid mid : Int} {now : ℚ} {tdu : Bool} {e : CheckError}
    (hc : st.duplicate_checker_.saved_message_ids_.card ≤ MAX_SAVED_MESSAGE_IDS)
    (h : (st.check_packet sid mid now tdu).2.2 = Except.error e) :
    (e ≠ CheckError.StaleOrFutureId →
      (st.check_packet sid mid now tdu).1 = st ∧
        (st.check_packet sid mid now tdu).2.1 = tdu) ∧
    (e = CheckError.StaleOrFutureId →
      mid ∈ (st.check_packet sid mid now tdu).1.duplicate_checker_.saved_message_ids_) := by
  unfold AuthData.check_packet at h ⊢
  by_cases h1 : st.session_id_ ≠ ((sid % 2 ^ 64).toNat)
  · rw [if_pos h1] at h ⊢
    dsimp only at h
    injection h with h2
    subst h2
    exact ⟨fun _ => ⟨rfl, rfl⟩, fun he => CheckError.noConfusion he⟩
  · rw [if_neg h1] at h ⊢
    by_cases h2 : mid % 2 = 0
    · rw [if_pos h2] at h ⊢
      dsimp only at h
      injection h with h3
      subst h3
      exact ⟨fun _ => ⟨rfl, rfl⟩, fun he => CheckError.noConfusion he⟩
    · rw [if_neg h2] at h ⊢
      rcases hcc : st.duplicate_checker_.check mid with ⟨c, sres⟩
      rw [hcc] at h
      cases sres with
      | error e2 =>
        dsimp only at h ⊢
        injection h with h3
        subst h3
        have hst : c = st.duplicate_checker_ := check_error_state hcc
        refine ⟨fun _ => ⟨?_, rfl⟩, fun he => ?_⟩
        · rw [hst]
        · rcases check_error_kind hcc with hk | hk <;>
            (subst hk; exact CheckError.noConfusion he)
      | ok u =>
        dsimp only at h ⊢
        split at h
        · rename_i hcond
          rw [if_pos hcond]
          dsimp only at h
          injection h with h3
          subst h3
          refine ⟨fun hne => absurd rfl hne, fun _ => ?_⟩
          dsimp only
          rw [update_stp_dup]
          exact (check_ok_spec hc hcc).2.1
        · dsimp only at h
          exact Except.noConfusion h

/-- Witness for C1 (amended): a BadParity failure (even id 8) leaves state
and variable untouched. -/
theorem check_packet_failure_frame_witness :
    ((⟨5, ⟨0, 0, 0⟩, [], 0, false, 0, ⟨∅⟩⟩ :
        AuthData).duplicate_checker_.saved_message_ids_.card ≤ MAX_SAVED_MESSAGE_IDS ∧
      ((⟨5, ⟨0, 0, 0⟩, [], 0, false, 0, ⟨∅⟩⟩ :
        AuthData).check_packet 5 8 0 false).2.2 = Except.error CheckError.BadParity) ∧
    (CheckError.BadParity ≠ CheckError.StaleOrFutureId →
      ((⟨5, ⟨0, 0, 0⟩, [], 0, false, 0, ⟨∅⟩⟩ : AuthData).check_packet 5 8 0 false).1 =
          (⟨5, ⟨0, 0, 0⟩, [], 0, false, 0, ⟨∅⟩⟩ : AuthData) ∧
        ((⟨5, ⟨0, 0, 0⟩, [], 0, false, 0, ⟨∅⟩⟩ : AuthData).check_packet 5 8 0 false).2.1 = false) ∧
    (CheckError.BadParity = CheckError.StaleOrFutureId →
      (8 : Int) ∈ ((⟨5, ⟨0, 0, 0⟩, [], 0, false, 0, ⟨∅⟩⟩ :
        AuthData).check_packet 5 8 0 false).1.duplicate_checker_.saved_message_ids_) :=
  ⟨⟨by decide, by decide⟩, check_packet_failure_frame (by decide) (by decide)⟩

/-- C10: when check_packet fails with one of the four early errors, the
caller's time_difference_was_updated variable keeps its prior value. -/
theorem check_packet_early_error_tdu
    {st : AuthData} {sid mid : Int} {now : ℚ} {tdu : Bool} {e : CheckError}
    (h : (st.check_packet sid mid now tdu).2.2 = Except.error e)
    (he : e = CheckError.WrongSession ∨ e = CheckError.BadParity ∨
      e = CheckError.Duplicate ∨ e = CheckError.TooOld) :
    (st.check_packet sid mid now tdu).2.1 = tdu := by
  unfold AuthData.check_packet at h ⊢
  by_cases h1 : st.session_id_ ≠ ((sid % 2 ^ 64).toNat)
  · rw [if_pos h1]
  · rw [if_neg h1] at h ⊢
    by_cases h2 : mid % 2 = 0
    · rw [if_pos h2]
    · rw [if_neg h2] at h ⊢
      rcases hcc : st.duplicate_checker_.check mid with ⟨c, sres⟩
      rw [hcc] at h
      cases sres with
      | error e2 => rfl
      | ok u =>
        dsimp only at h ⊢
        split at h
        · dsimp only at h
          injection h with h3
          subst h3
          rcases he with h' | h' | h' | h' <;> exact CheckError.noConfusion h'
        · dsimp only at h
          exact Except.noConfusion h

/-- Witness for C10: a WrongSession failure keeps the variable's prior
value (true here). -/
theorem check_packet_early_error_tdu_witness :
    (((⟨5, ⟨0, 0, 0⟩, [], 0, false, 0, ⟨∅⟩⟩ :
        AuthData).check_packet 6 7 0 true).2.2 = Except.error CheckError.WrongSession ∧
      (CheckError.WrongSession = CheckError.WrongSession ∨
        CheckError.WrongSession = CheckError.BadParity ∨
        CheckError.WrongSession = CheckError.Duplicate ∨
        CheckError.WrongSession = CheckError.TooOld)) ∧
    ((⟨5, ⟨0, 0, 0⟩, [], 0, false, 0, ⟨∅⟩⟩ :
        AuthData).check_packet 6 7 0 true).2.1 = true :=
  ⟨⟨by decide, Or.inl rfl⟩, check_packet_early_error_tdu (by decide) (Or.inl rfl)⟩

theorem update_stp_false (st : AuthData) (d : ℚ)
    (hw : st.server_time_difference_was_updated_ = false) :
    st.update_server_time_difference d =
      ({st with server_time_difference_was_updated_ := true,
                server_time_difference_ := d}, true) := by
  unfold AuthData.update_server_time_difference
  rw [hw]
  rfl

theorem update_stp_true_stay (st : AuthData) (d : ℚ)
    (hw : st.server_time_difference_was_updated_ = true)
    (hle : ¬(st.server_time_difference_ + 1/10000 < d)) :
    st.update_server_time_difference d = (st, false) := by
  unfold AuthData.update_server_time_difference
  rw [hw]
  rw [if_neg (by decide), if_neg hle]

theorem is_valid_inbound_self (st : AuthData) (mid : Int) (now : ℚ)
    (hdiff : st.server_time_difference_ = ((mid.tdiv (2 ^ 32) : Int) : ℚ) - now) :
    st.is_valid_inbound_msg_id mid now = true := by
  unfold AuthData.is_valid_inbound_msg_id AuthData.get_server_time
  rw [hdiff]
  apply decide_eq_true
  constructor <;> linarith

theorem check_packet_ok_eq {st : AuthData} {sid mid : Int} {now : ℚ} {tdu : Bool}
    {c : MessageIdDuplicateChecker}
    (hs : st.session_id_ = ((sid % 2 ^ 64).toNat))
    (hp : mid % 2 ≠ 0)
    (hcc : st.duplicate_checker_.check mid = (c, Except.ok ())) :
    st.check_packet sid mid now tdu =
      (if (st.post_update mid now c).1.server_time_difference_was_updated_ &&
          !((st.post_update mid now c).1.is_valid_inbound_msg_id mid now) then
        ((st.post_update mid now c).1, (st.post_update mid now c).2,
          Except.error CheckError.StaleOrFutureId)
      else
        ((st.post_update mid now c).1, (st.post_update mid now c).2, Except.ok ())) := by
  unfold AuthData.check_packet
  rw [if_neg (fun hne => hne hs), if_neg hp, hcc]
  rfl

theorem is_valid_inbound_false (st : AuthData) (mid : Int) (now : ℚ)
    (h : ¬(st.get_server_time now - 300 < ((mid.tdiv (2 ^ 32) : Int) : ℚ) ∧
          ((mid.tdiv (2 ^ 32) : Int) : ℚ) < st.get_server_time now + 30)) :
    st.is_valid_inbound_msg_id mid now = false := by
  unfold AuthData.is_valid_inbound_msg_id
  exact decide_eq_false h

theorem check_packet_first_sync_core
    {st : AuthData} {sid mid : Int} {now : ℚ} {tdu : Bool}
    (hw : st.server_time_difference_was_updated_ = false)
    (hs : st.session_id_ = ((sid % 2 ^ 64).toNat))
    (hp : mid % 2 ≠ 0)
    (hd : (st.duplicate_checker_.check mid).2 = Except.ok ())
    (h0 : 0 ≤ mid) (h63 : mid < 2 ^ 63) :
    (st.check_packet sid mid now tdu).2.2 = Except.ok () ∧
      (st.check_packet sid mid now tdu).2.1 = true := by
  have hq : ((mid.fdiv (2 ^ 32)) % 2 ^ 32 : Int) = mid.tdiv (2 ^ 32) := by
    rw [Int.fdiv_eq_ediv _ (by norm_num), Int.tdiv_eq_ediv h0 (by norm_num)]
    apply Int.emod_eq_of_lt (Int.ediv_nonneg h0 (by norm_num))
    rw [Int.ediv_lt_iff_lt_mul (by norm_num)]
    calc mid < 2 ^ 63 := h63
    _ ≤ 2 ^ 32 * 2 ^ 32 := by norm_num
  rcases hcc : st.duplicate_checker_.check mid with ⟨c, sres⟩
  rw [hcc] at hd
  dsimp only at hd
  subst hd
  rw [check_packet_ok_eq hs hp hcc]
  unfold AuthData.post_update
  rw [update_stp_false {st with duplicate_checker_ := c} _ hw]
  dsimp only
  rw [is_valid_inbound_self _ mid now (by dsimp only [AuthData.get_server_time]; rw [hq])]
  rw [Bool.not_true, Bool.and_false]
  rw [if_neg (by decide)]
  exact ⟨rfl, rfl⟩


/-- C2 (amended): a check_packet call entered before the first clock sync
(was_updated still false at entry) with matching session id, odd message id
and passing duplicate check succeeds for every nonnegative int64 message
id; the adopted estimate is derived from the id itself, so the time window
then holds. For negative ids the window check, performed against the
just-adopted estimate, can still reject with StaleOrFutureId (see the
counterexample), so the claim fails without the nonnegativity restriction. -/
theorem check_packet_first_sync_nonneg_ok
    {st : AuthData} {sid mid : Int} {now : ℚ} {tdu : Bool}
    (hw : st.server_time_difference_was_updated_ = false)
    (hs : st.session_id_ = ((sid % 2 ^ 64).toNat))
    (hp : mid % 2 ≠ 0)
    (hd : (st.duplicate_checker_.check mid).2 = Except.ok ())
    (h0 : 0 ≤ mid) (h63 : mid < 2 ^ 63) :
    (st.check_packet sid mid now tdu).2.2 = Except.ok () :=
  (check_packet_first_sync_core hw hs hp hd h0 h63).1

/-- Witness for C2 (amended) at message id 9 on a fresh session. -/
theorem check_packet_first_sync_nonneg_ok_witness :
    ((⟨5, ⟨0, 0, 0⟩, [], 0, false, 0, ⟨∅⟩⟩ :
        AuthData).server_time_difference_was_updated_ = false ∧
      (5 : Nat) = (((5 : Int) % 2 ^ 64).toNat) ∧
      ((9 : Int) % 2 ≠ 0) ∧
      (((⟨5, ⟨0, 0, 0⟩, [], 0, false, 0, ⟨∅⟩⟩ :
        AuthData).duplicate_checker_.check 9).2 = Except.ok ()) ∧
      (0 : Int) ≤ 9 ∧ (9 : Int) < 2 ^ 63) ∧
    ((⟨5, ⟨0, 0, 0⟩, [], 0, false, 0, ⟨∅⟩⟩ :
        AuthData).check_packet 5 9 2 true).2.2 = Except.ok () :=
  ⟨⟨rfl, by decide, by decide, by decide, by decide, by decide⟩,
    check_packet_first_sync_nonneg_ok rfl (by decide) (by decide) (by decide)
      (by decide) (by decide)⟩

/-- Counterexample for C2 as stated: on a fresh session (clock never
updated at entry, matching session id, odd id, empty window) the message
id 1 - 2^32 is still rejected with StaleOrFutureId, because check_packet
updates the estimate before consulting the was-updated flag. -/
theorem check_packet_first_sync_stale_counterexample :
    (⟨5, ⟨0, 0, 0⟩, [], 0, false, 0, ⟨∅⟩⟩ :
        AuthData).server_time_difference_was_updated_ = false ∧
      (5 : Nat) = (((5 : Int) % 2 ^ 64).toNat) ∧
      ((1 - 2 ^ 32 : Int) % 2 ≠ 0) ∧
      (((⟨5, ⟨0, 0, 0⟩, [], 0, false, 0, ⟨∅⟩⟩ :
        AuthData).duplicate_checker_.check (1 - 2 ^ 32)).2 = Except.ok ()) ∧
      ((⟨5, ⟨0, 0, 0⟩, [], 0, false, 0, ⟨∅⟩⟩ :
        AuthData).check_packet 5 (1 - 2 ^ 32) 0 false).2.2 =
        Except.error CheckError.StaleOrFutureId := by
  refine ⟨rfl, by decide, by decide, by decide, ?_⟩
  have hcc : (⟨5, ⟨0, 0, 0⟩, [], 0, false, 0, ⟨∅⟩⟩ :
      AuthData).duplicate_checker_.check (1 - 2 ^ 32) =
      (⟨{1 - 2 ^ 32}⟩, Except.ok ()) := by decide
  rw [check_packet_ok_eq (by decide) (by decide) hcc]
  unfold AuthData.post_update
  rw [update_stp_false _ _ rfl]
  dsimp only
  rw [is_valid_inbound_false _ _ _ ?hnv]
  case hnv =>
    unfold AuthData.get_server_time
    dsimp only
    rw [show ((1 - 2 ^ 32 : Int).fdiv (2 ^ 32)) % 2 ^ 32 = 4294967295 from by decide,
      show ((1 - 2 ^ 32 : Int).tdiv (2 ^ 32)) = 0 from by decide]
    push_cast
    norm_num
  rfl

/-- C3: on a fresh session (empty window, clock never synced) a packet
carrying the session own id and message id 7 is admitted and reports that
the time estimate was updated. -/
theorem check_packet_fresh_seven_ok
    {st : AuthData} {sid : Int} {now : ℚ} {tdu : Bool}
    (hw : st.server_time_difference_was_updated_ = false)
    (hdup : st.duplicate_checker_.saved_message_ids_ = ∅)
    (hs : st.session_id_ = ((sid % 2 ^ 64).toNat)) :
    (st.check_packet sid 7 now tdu).2.2 = Except.ok () ∧
      (st.check_packet sid 7 now tdu).2.1 = true := by
  have hckr : st.duplicate_checker_ = ⟨∅⟩ := by
    rcases hdc : st.duplicate_checker_ with ⟨s⟩
    rw [hdc] at hdup
    dsimp only at hdup
    rw [hdup]
  apply check_packet_first_sync_core hw hs (by decide) ?_ (by norm_num) (by norm_num)
  rw [hckr]
  decide

/-- Witness for C3 at a concrete fresh session. -/
theorem check_packet_fresh_seven_ok_witness :
    ((⟨5, ⟨0, 0, 0⟩, [], 0, false, 0, ⟨∅⟩⟩ :
        AuthData).server_time_difference_was_updated_ = false ∧
      (⟨5, ⟨0, 0, 0⟩, [], 0, false, 0, ⟨∅⟩⟩ :
        AuthData).duplicate_checker_.saved_message_ids_ = ∅ ∧
      (5 : Nat) = (((5 : Int) % 2 ^ 64).toNat)) ∧
    (((⟨5, ⟨0, 0, 0⟩, [], 0, false, 0, ⟨∅⟩⟩ :
        AuthData).check_packet 5 7 3 false).2.2 = Except.ok () ∧
      ((⟨5, ⟨0, 0, 0⟩, [], 0, false, 0, ⟨∅⟩⟩ :
        AuthData).check_packet 5 7 3 false).2.1 = true) :=
  ⟨⟨rfl, rfl, by decide⟩, check_packet_fresh_seven_ok rfl rfl (by decide)⟩

/-- Counterexample for C1 as stated: a StaleOrFutureId rejection after
which the duplicate window contains the rejected message id, i.e. the
session state changed on a failing path. -/
theorem check_packet_stale_mutation_counterexample :
    ((⟨5, ⟨0, 0, 0⟩, [], 1000000, true, 0, ⟨∅⟩⟩ :
        AuthData).check_packet 5 (1000 * 2 ^ 32 + 1) 0 false).2.2 =
        Except.error CheckError.StaleOrFutureId ∧
      ((⟨5, ⟨0, 0, 0⟩, [], 1000000, true, 0, ⟨∅⟩⟩ :
        AuthData).check_packet 5 (1000 * 2 ^ 32 + 1) 0
          false).1.duplicate_checker_.saved_message_ids_ ≠
        (⟨5, ⟨0, 0, 0⟩, [], 1000000, true, 0, ⟨∅⟩⟩ :
        AuthData).duplicate_checker_.saved_message_ids_ := by
  have hcc : (⟨5, ⟨0, 0, 0⟩, [], 1000000, true, 0, ⟨∅⟩⟩ :
      AuthData).duplicate_checker_.check (1000 * 2 ^ 32 + 1) =
      (⟨{1000 * 2 ^ 32 + 1}⟩, Except.ok ()) := by decide
  have hres : (⟨5, ⟨0, 0, 0⟩, [], 1000000, true, 0, ⟨∅⟩⟩ :
      AuthData).check_packet 5 (1000 * 2 ^ 32 + 1) 0 false =
      (⟨5, ⟨0, 0, 0⟩, [], 1000000, true, 0, ⟨{1000 * 2 ^ 32 + 1}⟩⟩,
        false, Except.error CheckError.StaleOrFutureId) := by
    rw [check_packet_ok_eq (by decide) (by decide) hcc]
    unfold AuthData.post_update
    rw [update_stp_true_stay _ _ rfl ?hle]
    case hle =>
      dsimp only
      rw [show ((1000 * 2 ^ 32 + 1 : Int).fdiv (2 ^ 32)) % 2 ^ 32 = 1000 from by decide]
      push_cast
      norm_num
    rw [is_valid_inbound_false _ _ _ ?hnv]
    case hnv =>
      unfold AuthData.get_server_time
      dsimp only
      rw [show ((1000 * 2 ^ 32 + 1 : Int).tdiv (2 ^ 32)) = 1000 from by decide]
      push_cast
      norm_num
    rfl
  rw [hres]
  exact ⟨rfl, by decide⟩

/-- Counterexample for C5 as stated: the very first update adopts the
candidate unconditionally, so a negative first candidate makes the stored
estimate decrease below its prior value. -/
theorem update_server_time_difference_first_decreases :
    ((⟨5, ⟨0, 0, 0⟩, [], 0, false, 0, ⟨∅⟩⟩ :
        AuthData).update_server_time_difference (-5)).1.server_time_difference_ <
      (⟨5, ⟨0, 0, 0⟩, [], 0, false, 0, ⟨∅⟩⟩ :
        AuthData).server_time_difference_ := by
  decide

theorem toBits64_neg4 : toBits64 (-4) = 2 ^ 64 - 4 := by decide

theorem mod_four_eq_and_three (x : Nat) : x % 4 = x &&& 3 := by
  have h := Nat.and_pow_two_sub_one_eq_mod x 2
  norm_num at h
  exact h.symm

theorem four_dvd_land_mask (n : Nat) : 4 ∣ (n &&& (2 ^ 64 - 4)) := by
  apply Nat.dvd_of_mod_eq_zero
  rw [mod_four_eq_and_three, Nat.land_assoc]
  rw [show ((2 ^ 64 - 4 : Nat) &&& 3) = 0 from by decide]
  exact Nat.and_zero _

theorem four_dvd_ofBits64 {n : Nat} (h : 4 ∣ n) : (4 : Int) ∣ ofBits64 n := by
  unfold ofBits64
  split
  · exact_mod_cast h
  · apply dvd_sub
    · exact_mod_cast h
    · norm_num

/-- C4: every minted outbound id is strictly greater than the previously
minted one and divisible by 4, for any now and any random draw; the stored
last id becomes the minted id, so consecutive calls yield a strictly
increasing sequence of multiples of 4. -/
theorem next_message_id_mono_mul4
    (st : AuthData) (now : ℚ) (rx : Nat)
    (h4 : (4 : Int) ∣ st.last_message_id_) :
    st.last_message_id_ < (st.next_message_id now rx).2 ∧
      (4 : Int) ∣ (st.next_message_id now rx).2 ∧
      (st.next_message_id now rx).1.last_message_id_ = (st.next_message_id now rx).2 := by
  unfold AuthData.next_message_id
  dsimp only
  refine ⟨?_, ?_, ?_⟩ <;> split
  · rename_i hge
    dsimp only
    have h1 : (1 : Int) ≤ (((rx >>> 22) &&& 1023) + 1 : Nat) := by
      exact_mod_cast Nat.succ_le_succ (Nat.zero_le _)
    linarith
  · rename_i hlt
    exact lt_of_not_ge hlt
  · rename_i hge
    dsimp only
    exact dvd_add h4 (Dvd.intro (2 * (((rx >>> 22) &&& 1023) + 1 : Nat)) (by ring))
  · rename_i hlt
    dsimp only
    rw [toBits64_neg4]
    exact four_dvd_ofBits64 (four_dvd_land_mask _)
  · rfl
  · rfl

/-- Witness for C4 on a fresh generator (last id 0, divisible by 4). -/
theorem next_message_id_mono_mul4_witness :
    (4 : Int) ∣ (⟨5, ⟨0, 0, 0⟩, [], 0, false, 0, ⟨∅⟩⟩ : AuthData).last_message_id_ ∧
    ((⟨5, ⟨0, 0, 0⟩, [], 0, false, 0, ⟨∅⟩⟩ : AuthData).last_message_id_ <
        ((⟨5, ⟨0, 0, 0⟩, [], 0, false, 0, ⟨∅⟩⟩ : AuthData).next_message_id 0 0).2 ∧
      (4 : Int) ∣ ((⟨5, ⟨0, 0, 0⟩, [], 0, false, 0, ⟨∅⟩⟩ : AuthData).next_message_id 0 0).2 ∧
      ((⟨5, ⟨0, 0, 0⟩, [], 0, false, 0, ⟨∅⟩⟩ : AuthData).next_message_id 0 0).1.last_message_id_ =
        ((⟨5, ⟨0, 0, 0⟩, [], 0, false, 0, ⟨∅⟩⟩ : AuthData).next_message_id 0 0).2) :=
  ⟨by decide, next_message_id_mono_mul4 _ 0 0 (by decide)⟩

theorem update_step (st : AuthData) (c : ℚ)
    (hw : st.server_time_difference_was_updated_ = true) :
    (st.update_server_time_difference c).1.server_time_difference_was_updated_ = true ∧
    st.server_time_difference_ ≤ (st.update_server_time_difference c).1.server_time_difference_ ∧
    ((st.update_server_time_difference c).1.server_time_difference_ =
        st.server_time_difference_ ∨
      (st.update_server_time_difference c).1.server_time_difference_ = c) ∧
    c ≤ (st.update_server_time_difference c).1.server_time_difference_ + 1/10000 := by
  unfold AuthData.update_server_time_difference
  rw [hw]
  rw [if_neg (by decide)]
  split
  · rename_i hlt
    dsimp only
    refine ⟨rfl, by linarith, Or.inr rfl, by linarith⟩
  · rename_i hge
    refine ⟨hw, le_refl _, Or.inl rfl, by linarith [not_lt.mp hge]⟩

/-- C5 (amended): once the estimate has been updated at least once, the
clock-skew update is monotonically non-decreasing over any sequence of
candidates, the final estimate is the initial one or one of the
candidates, and every candidate exceeds the final estimate by at most
1e-4. The very first update instead adopts unconditionally and can
decrease the stored value (see the counterexample), and a candidate
within 1e-4 above the estimate is not adopted, so the estimate equals the
maximum candidate only up to that slack. -/
theorem update_server_time_difference_ratchet
    (st : AuthData) (hw : st.server_time_difference_was_updated_ = true)
    (cs : List ℚ) :
    st.server_time_difference_ ≤
      (cs.foldl (fun s c => (s.update_server_time_difference c).1)
        st).server_time_difference_ ∧
    (∀ c ∈ cs, c ≤
      (cs.foldl (fun s c => (s.update_server_time_difference c).1)
        st).server_time_difference_ + 1/10000) ∧
    ((cs.foldl (fun s c => (s.update_server_time_difference c).1)
        st).server_time_difference_ = st.server_time_difference_ ∨
      (cs.foldl (fun s c => (s.update_server_time_difference c).1)
        st).server_time_difference_ ∈ cs) := by
  induction cs generalizing st with
  | nil => exact ⟨le_refl _, by simp, Or.inl rfl⟩
  | cons c cs ih =>
    obtain ⟨hwas, hle, hor, heps⟩ := update_step st c hw
    obtain ⟨ih1, ih2, ih3⟩ := ih _ hwas
    dsimp only [List.foldl]
    refine ⟨le_trans hle ih1, ?_, ?_⟩
    · intro d hd
      rcases List.mem_cons.mp hd with h' | h'
      · subst h'
        linarith
      · exact ih2 d h'
    · rcases ih3 with h' | h'
      · rw [h']
        rcases hor with h2 | h2
        · exact Or.inl h2
        · exact Or.inr (by rw [h2]; exact List.mem_cons_self c cs)
      · exact Or.inr (List.mem_cons_of_mem _ h')

/-- Witness for C5 (amended) on an already-updated state and candidates
[5, 3]. -/
theorem update_server_time_difference_ratchet_witness :
    (⟨5, ⟨0, 0, 0⟩, [], 1000000, true, 0, ⟨∅⟩⟩ :
        AuthData).server_time_difference_was_updated_ = true ∧
    ((⟨5, ⟨0, 0, 0⟩, [], 1000000, true, 0, ⟨∅⟩⟩ :
        AuthData).server_time_difference_ ≤
      (([5, 3] : List ℚ).foldl (fun s c => (s.update_server_time_difference c).1)
        (⟨5, ⟨0, 0, 0⟩, [], 1000000, true, 0, ⟨∅⟩⟩ : AuthData)).server_time_difference_ ∧
    (∀ c ∈ ([5, 3] : List ℚ), c ≤
      (([5, 3] : List ℚ).foldl (fun s c => (s.update_server_time_difference c).1)
        (⟨5, ⟨0, 0, 0⟩, [], 1000000, true, 0, ⟨∅⟩⟩ :
          AuthData)).server_time_difference_ + 1/10000) ∧
    ((([5, 3] : List ℚ).foldl (fun s c => (s.update_server_time_difference c).1)
        (⟨5, ⟨0, 0, 0⟩, [], 1000000, true, 0, ⟨∅⟩⟩ : AuthData)).server_time_difference_ =
        (⟨5, ⟨0, 0, 0⟩, [], 1000000, true, 0, ⟨∅⟩⟩ :
          AuthData).server_time_difference_ ∨
      (([5, 3] : List ℚ).foldl (fun s c => (s.update_server_time_difference c).1)
        (⟨5, ⟨0, 0, 0⟩, [], 1000000, true, 0, ⟨∅⟩⟩ :
          AuthData)).server_time_difference_ ∈ ([5, 3] : List ℚ))) :=
  ⟨rfl, update_server_time_difference_ratchet _ rfl [5, 3]⟩

theorem update_salt_go_nil (server_time : ℚ) (cur : ServerSalt) :
    update_salt_go server_time cur [] = (cur, []) := by
  unfold update_salt_go
  rfl

theorem update_salt_go_cons (server_time : ℚ) (cur : ServerSalt)
    (fs : List ServerSalt) (hne : fs ≠ [])
    (hlt : (fs.getLast hne).valid_since < server_time) :
    update_salt_go server_time cur fs =
      update_salt_go server_time (fs.getLast hne) fs.dropLast := by
  conv_lhs => unfold update_salt_go
  rw [dif_neg hne]
  dsimp only
  rw [if_pos hlt]

/-- C8: replacing the future salts with salts valid since 10, 20 and 30
and advancing at any time whose server time exceeds 30 promotes the salt
with valid_since 30 to current and empties the future list. -/
theorem set_future_salts_promotes
    (st : AuthData) (now : ℚ) (s10 s20 s30 : ServerSalt)
    (h10 : s10.valid_since = 10) (h20 : s20.valid_since = 20)
    (h30 : s30.valid_since = 30)
    (hnow : 30 < st.get_server_time now) :
    (st.set_future_salts [s10, s20, s30] now).server_salt_ = s30 ∧
      (st.set_future_salts [s10, s20, s30] now).future_salts_ = [] := by
  unfold AuthData.get_server_time at hnow
  have hsort : List.insertionSort (fun a b => b.valid_since ≤ a.valid_since)
      [s10, s20, s30] = [s30, s20, s10] := by
    norm_num [List.insertionSort, List.orderedInsert, h10, h20, h30]
  have hgo : update_salt_go (now + st.server_time_difference_)
      st.server_salt_ [s30, s20, s10] = (s30, []) := by
    have l10 : s10.valid_since < now + st.server_time_difference_ := by
      rw [h10]; linarith
    have l20 : s20.valid_since < now + st.server_time_difference_ := by
      rw [h20]; linarith
    have l30 : s30.valid_since < now + st.server_time_difference_ := by
      rw [h30]; linarith
    rw [update_salt_go_cons (now + st.server_time_difference_) st.server_salt_
      [s30, s20, s10] (by simp) (show s10.valid_since < _ from l10)]
    show update_salt_go (now + st.server_time_difference_) s10 [s30, s20] = (s30, [])
    rw [update_salt_go_cons (now + st.server_time_difference_) s10
      [s30, s20] (by simp) (show s20.valid_since < _ from l20)]
    show update_salt_go (now + st.server_time_difference_) s20 [s30] = (s30, [])
    rw [update_salt_go_cons (now + st.server_time_difference_) s20
      [s30] (by simp) (show s30.valid_since < _ from l30)]
    show update_salt_go (now + st.server_time_difference_) s30 [] = (s30, [])
    exact update_salt_go_nil _ _
  unfold AuthData.set_future_salts
  rw [if_neg (by simp), hsort]
  unfold AuthData.update_salt AuthData.get_server_time
  dsimp only
  rw [hgo]
  exact ⟨rfl, rfl⟩

/-- Witness for C8 at a concrete synced session and concrete salts. -/
theorem set_future_salts_promotes_witness :
    ((⟨1, 10, 20⟩ : ServerSalt).valid_since = 10 ∧
      (⟨2, 20, 30⟩ : ServerSalt).valid_since = 20 ∧
      (⟨3, 30, 40⟩ : ServerSalt).valid_since = 30 ∧
      (30 : ℚ) < (⟨5, ⟨0, 0, 0⟩, [], 1000000, true, 0, ⟨∅⟩⟩ :
        AuthData).get_server_time 0) ∧
    ((⟨5, ⟨0, 0, 0⟩, [], 1000000, true, 0, ⟨∅⟩⟩ :
        AuthData).set_future_salts [⟨1, 10, 20⟩, ⟨2, 20, 30⟩, ⟨3, 30, 40⟩] 0).server_salt_ =
        (⟨3, 30, 40⟩ : ServerSalt) ∧
      ((⟨5, ⟨0, 0, 0⟩, [], 1000000, true, 0, ⟨∅⟩⟩ :
        AuthData).set_future_salts [⟨1, 10, 20⟩, ⟨2, 20, 30⟩, ⟨3, 30, 40⟩] 0).future_salts_ = [] :=
  ⟨⟨rfl, rfl, rfl, by norm_num [AuthData.get_server_time]⟩,
    set_future_salts_promotes _ 0 _ _ _ rfl rfl rfl
      (by norm_num [AuthData.get_server_time])⟩

end Td.Mtproto
